import Mathlib

/-
Verification of the atomic-bridge coordinator (boymaas/atomic-bridge).

The development shallowly embeds the two source files src/types.rs and
src/bridge_service.rs. Modules of the repository that are referenced by
the source but not provided (bridge_monitoring.rs, bridge_service/events.rs,
bridge_service/active_swap.rs) are modelled from the specification; each
such definition carries a doc comment starting with the words
Modelled from the spec. Rust panics (todo! sites) are modelled explicitly:
handle_initiator_event returns Except Unit, and the merged poll returns a
dedicated panicked outcome.
-/

namespace AtomicBridge

/-- BridgeTransferId (src/types.rs line 7): unique per-swap identifier. -/
structure BridgeTransferId (H : Type) where
  hash : H
deriving DecidableEq

/-- InitiatorAddress (src/types.rs line 40). -/
structure InitiatorAddress (A : Type) where
  addr : A
deriving DecidableEq

/-- RecipientAddress (src/types.rs line 49). -/
structure RecipientAddress (A : Type) where
  addr : A
deriving DecidableEq

/-- HashLock (src/types.rs line 58). -/
structure HashLock (H : Type) where
  hash : H
deriving DecidableEq

/-- HashLockPreImage (src/types.rs line 65): a byte vector, modelled as List Nat. -/
structure HashLockPreImage where
  bytes : List Nat
deriving DecidableEq

/-- TimeLock (src/types.rs line 68): a u64 treated opaquely, modelled as Nat. -/
structure TimeLock where
  val : Nat
deriving DecidableEq

/-- Amount (src/types.rs line 71): a u64 treated opaquely, modelled as Nat. -/
structure Amount where
  val : Nat
deriving DecidableEq

/-- BridgeTransferDetails (src/types.rs lines 74-81): the full initiator-side
swap description. The recipient address is carried as raw bytes. -/
structure BridgeTransferDetails (A H : Type) where
  bridge_transfer_id : BridgeTransferId H
  initiator_address : InitiatorAddress A
  recipient_address : RecipientAddress (List Nat)
  hash_lock : HashLock H
  time_lock : TimeLock
  amount : Amount
deriving DecidableEq

/-- LockDetails (src/types.rs lines 84-91): the counterparty-side lock
description; the initiator address is raw bytes, the recipient is typed. -/
structure LockDetails (A H : Type) where
  bridge_transfer_id : BridgeTransferId H
  initiator_address : InitiatorAddress (List Nat)
  recipient_address : RecipientAddress A
  hash_lock : HashLock H
  time_lock : TimeLock
  amount : Amount
deriving DecidableEq

/-- CounterpartyCompletedDetails (src/types.rs lines 94-101). Note that the
source structure has NO time_lock field: its fields are bridge_transfer_id,
initiator_address, recipient_address, hash_lock, secret, amount. -/
structure CounterpartyCompletedDetails (A H : Type) where
  bridge_transfer_id : BridgeTransferId H
  initiator_address : InitiatorAddress (List Nat)
  recipient_address : RecipientAddress A
  hash_lock : HashLock H
  secret : HashLockPreImage
  amount : Amount
deriving DecidableEq

/-- CounterpartyCompletedDetails::from_lock_details (src/types.rs lines
124-133): copies the fields present in the target structure and sets the
secret; the time_lock of the lock details has no counterpart field. -/
def CounterpartyCompletedDetails.from_lock_details {A H : Type}
    (lock_details : LockDetails A H) (secret : HashLockPreImage) :
    CounterpartyCompletedDetails A H :=
  { bridge_transfer_id := lock_details.bridge_transfer_id
    initiator_address := lock_details.initiator_address
    recipient_address := lock_details.recipient_address
    hash_lock := lock_details.hash_lock
    secret := secret
    amount := lock_details.amount }

/-- Modelled from the spec: bridge_monitoring.rs is not under src/.
Initiator-side contract events, spec section 4.2:
Initiated(details), Completed(id), Refunded(id). -/
inductive BridgeContractInitiatorEvent (A H : Type) where
  | Initiated (details : BridgeTransferDetails A H)
  | Completed (id : BridgeTransferId H)
  | Refunded (id : BridgeTransferId H)
deriving DecidableEq

/-- Modelled from the spec: bridge_monitoring.rs is not under src/.
Counterparty-side contract events. The exhaustive match without a wildcard
in handle_counterparty_event (src/bridge_service.rs lines 94-111) shows the
source enum has exactly the variants Locked and Completed. -/
inductive BridgeContractCounterpartyEvent (A H : Type) where
  | Locked (details : LockDetails A H)
  | Completed (details : CounterpartyCompletedDetails A H)
deriving DecidableEq

/-- Modelled from the spec: blockchain_service.rs is not under src/.
A chain-observer event is tagged as an initiator event or a counterparty
event, spec section 4.2. -/
inductive ContractEvent (A H : Type) where
  | InitiatorEvent (e : BridgeContractInitiatorEvent A H)
  | CounterpartyEvent (e : BridgeContractCounterpartyEvent A H)
deriving DecidableEq

/-- Modelled from the spec: bridge_service/events.rs is not under src/.
Initiator-side coordinator warning, spec section 4.6. -/
inductive IWarn (A H : Type) where
  | AlreadyPresent (details : BridgeTransferDetails A H)
deriving DecidableEq

/-- Modelled from the spec: bridge_service/events.rs is not under src/.
Counterparty-side coordinator warning, spec section 4.6. -/
inductive CWarn (A H : Type) where
  | CannotCompleteUnexistingSwap (details : CounterpartyCompletedDetails A H)
deriving DecidableEq

/-- Modelled from the spec: bridge_service/events.rs is not under src/.
An initiator-side externally visible event: a passthrough contract event or
a warning, spec section 4.6. -/
inductive IEvent (A H : Type) where
  | ContractEvent (e : BridgeContractInitiatorEvent A H)
  | Warn (w : IWarn A H)
deriving DecidableEq

/-- Modelled from the spec: bridge_service/events.rs is not under src/.
A counterparty-side externally visible event, spec section 4.6. -/
inductive CEvent (A H : Type) where
  | ContractEvent (e : BridgeContractCounterpartyEvent A H)
  | Warn (w : CWarn A H)
deriving DecidableEq

/-- Modelled from the spec: bridge_service/events.rs is not under src/.
The outer Event type with four arms, one per direction and role, spec
section 4.6. The source constructs the arms B1I and B2C. -/
inductive Event (A1 H1 A2 H2 : Type) where
  | B1I (e : IEvent A1 H1)
  | B1C (e : CEvent A1 H1)
  | B2I (e : IEvent A2 H2)
  | B2C (e : CEvent A2 H2)
deriving DecidableEq

/-- Modelled from the spec: active_swap.rs is not under src/. Swap phases,
spec section 3. -/
inductive SwapPhase where
  | LockingOnCounterparty
  | WaitingForCounterpartyCompletion
  | CompletingOnInitiator
  | Done
deriving DecidableEq

/-- Modelled from the spec: active_swap.rs is not under src/. One in-flight
swap entry: original details, phase and retry count, spec section 3. -/
structure ActiveSwap (A H : Type) where
  details : BridgeTransferDetails A H
  phase : SwapPhase
  retry_count : Nat
deriving DecidableEq

/-- ActiveSwapEvent variants as matched in BridgeService::poll_next
(src/bridge_service.rs lines 149-168). The id is over the source-chain hash
of the owning map; action errors are an opaque type E. -/
inductive ActiveSwapEvent (H E : Type) where
  | BridgeAssetsLocked (id : BridgeTransferId H)
  | BridgeAssetsLockingError (e : E)
  | BridgeAssetsCompleted (id : BridgeTransferId H)
  | BridgeAssetsCompletingError (e : E)
deriving DecidableEq

/-- ActiveSwapMapError as matched in handle_counterparty_event
(src/bridge_service.rs line 105): the single variant NonExistingSwap. -/
inductive ActiveSwapMapError where
  | NonExistingSwap
deriving DecidableEq

/-- Modelled from the spec: active_swap.rs is not under src/. A contract
action issued by an ActiveSwapMap, spec sections 4.1 and 4.4: a lock on the
destination counterparty contract (with converted id, hash lock and
recipient) or a complete on the source initiator contract (with the
pre-image). Recording issued actions makes the action trace observable. -/
inductive SwapAction (H1 A2 H2 : Type) where
  | lock_bridge_transfer (id : BridgeTransferId H2) (hash_lock : HashLock H2)
      (time_lock : TimeLock) (recipient : RecipientAddress A2) (amount : Amount)
  | complete_bridge_transfer (id : BridgeTransferId H1) (secret : HashLockPreImage)
deriving DecidableEq

/-- A lazy stream modelled as a queue of pending items plus an ended flag.
Polling a nonempty queue is Ready(Some(head)); an empty ended stream is
Ready(None); an empty unended stream is Pending. -/
structure StreamState (α : Type) where
  queue : List α
  ended : Bool
deriving DecidableEq

/-- Outcome of polling a StreamState. -/
inductive StreamPoll (α σ : Type) where
  | readySome (a : α) (rest : σ)
  | readyNone
  | pending
deriving DecidableEq

/-- Poll a StreamState. -/
def StreamState.poll {α : Type} : StreamState α → StreamPoll α (StreamState α)
  | ⟨[], false⟩ => .pending
  | ⟨[], true⟩ => .readyNone
  | ⟨a :: rest, ended⟩ => .readySome a ⟨rest, ended⟩

/-- Modelled from the spec: active_swap.rs is not under src/. The directional
swap registry, spec section 4.4: a mapping from BridgeTransferId to
ActiveSwap, the trace of contract actions it has begun, and its sub-stream
of ActiveSwapEvents (the outcomes of spawned action tasks arrive on this
stream; in the model the stream contents are an input). -/
structure ActiveSwapMap (A1 H1 A2 H2 E : Type) where
  swaps : List (BridgeTransferId H1 × ActiveSwap A1 H1)
  issued_actions : List (SwapAction H1 A2 H2)
  event_stream : StreamState (ActiveSwapEvent H1 E)
deriving DecidableEq

/-- Modelled from the spec: active_swap.rs is not under src/. Membership
test, spec section 4.4. -/
def ActiveSwapMap.already_executing {A1 H1 A2 H2 E : Type} [DecidableEq H1]
    (m : ActiveSwapMap A1 H1 A2 H2 E) (id : BridgeTransferId H1) : Bool :=
  m.swaps.any (fun p => decide (p.1 = id))

/-- Modelled from the spec: active_swap.rs is not under src/. Spec section
4.4: inserts a new entry iff absent and begins the lock action on the
destination counterparty contract with converted types (spec section 4.3);
new entries start in phase LockingOnCounterparty with retry count 0. -/
def ActiveSwapMap.start_bridge_transfer {A1 H1 A2 H2 E : Type} [DecidableEq H1]
    (convH : H1 → H2) (convA : List Nat → A2)
    (m : ActiveSwapMap A1 H1 A2 H2 E) (details : BridgeTransferDetails A1 H1) :
    ActiveSwapMap A1 H1 A2 H2 E :=
  if m.already_executing details.bridge_transfer_id then m
  else
    { m with
      swaps := m.swaps ++ [(details.bridge_transfer_id,
        { details := details, phase := .LockingOnCounterparty, retry_count := 0 })]
      issued_actions := m.issued_actions ++
        [.lock_bridge_transfer ⟨convH details.bridge_transfer_id.hash⟩
          ⟨convH details.hash_lock.hash⟩ details.time_lock
          ⟨convA details.recipient_address.addr⟩ details.amount] }

/-- Modelled from the spec: active_swap.rs is not under src/. Spec section
4.4: looks up the entry under the id converted to the source-chain hash (the
trait bounds in src/bridge_service.rs lines 90-92 supply this conversion);
if absent, returns NonExistingSwap; otherwise transitions the entry to
CompletingOnInitiator and begins a complete action on the source initiator
contract, supplying the pre-image from the completion event. -/
def ActiveSwapMap.complete_bridge_transfer {A1 H1 A2 H2 E : Type} [DecidableEq H1]
    (convHBack : H2 → H1) (m : ActiveSwapMap A1 H1 A2 H2 E)
    (details : CounterpartyCompletedDetails A2 H2) :
    Except ActiveSwapMapError (ActiveSwapMap A1 H1 A2 H2 E) :=
  let id : BridgeTransferId H1 := ⟨convHBack details.bridge_transfer_id.hash⟩
  if m.already_executing id then
    .ok { m with
      swaps := m.swaps.map (fun p =>
        if p.1 = id then (p.1, { p.2 with phase := .CompletingOnInitiator }) else p)
      issued_actions := m.issued_actions ++
        [.complete_bridge_transfer id details.secret] }
  else .error .NonExistingSwap

/-- handle_initiator_event (src/bridge_service.rs lines 55-81). On Initiated:
if the id is already executing, emit the AlreadyPresent warning and leave the
map alone; otherwise start the bridge transfer and pass the event through.
On Completed: pass the event through (the map is not touched). On Refunded:
the source is a todo! and panics, modelled as the error value. -/
def handle_initiator_event {A1 H1 A2 H2 E : Type} [DecidableEq H1]
    (convH : H1 → H2) (convA : List Nat → A2)
    (initiator_event : BridgeContractInitiatorEvent A1 H1)
    (active_swaps : ActiveSwapMap A1 H1 A2 H2 E) :
    Except Unit (Option (Event A1 H1 A2 H2) × ActiveSwapMap A1 H1 A2 H2 E) :=
  match initiator_event with
  | .Initiated details =>
    if active_swaps.already_executing details.bridge_transfer_id then
      .ok (some (.B1I (.Warn (.AlreadyPresent details))), active_swaps)
    else
      .ok (some (.B1I (.ContractEvent (.Initiated details))),
        active_swaps.start_bridge_transfer convH convA details)
  | .Completed id =>
    .ok (some (.B1I (.ContractEvent (.Completed id))), active_swaps)
  | .Refunded _ => .error ()

/-- handle_counterparty_event (src/bridge_service.rs lines 83-112). Locked is
passed through. Completed first invokes complete_bridge_transfer on the map;
on success the event is passed through; on NonExistingSwap the
CannotCompleteUnexistingSwap warning is emitted with the map unchanged. This
function has no panic site. -/
def handle_counterparty_event {A1 H1 A2 H2 E : Type} [DecidableEq H1]
    (convHBack : H2 → H1)
    (event : BridgeContractCounterpartyEvent A2 H2)
    (active_swaps : ActiveSwapMap A1 H1 A2 H2 E) :
    Option (Event A1 H1 A2 H2) × ActiveSwapMap A1 H1 A2 H2 E :=
  match event with
  | .Locked details => (some (.B2C (.ContractEvent (.Locked details))), active_swaps)
  | .Completed details =>
    match active_swaps.complete_bridge_transfer convHBack details with
    | .ok m => (some (.B2C (.ContractEvent (.Completed details))), m)
    | .error .NonExistingSwap =>
      (some (.B2C (.Warn (.CannotCompleteUnexistingSwap details))), active_swaps)

/-- State of a BridgeService (src/bridge_service.rs lines 22-32): the two
observer streams and the two directional swap maps. -/
structure BridgeServiceState (A1 H1 A2 H2 E1 E2 : Type) where
  blockchain_1 : StreamState (ContractEvent A1 H1)
  blockchain_2 : StreamState (ContractEvent A2 H2)
  active_swaps_b1_to_b2 : ActiveSwapMap A1 H1 A2 H2 E1
  active_swaps_b2_to_b1 : ActiveSwapMap A2 H2 A1 H1 E2
deriving DecidableEq

/-- Outcome of one BridgeService poll step: Poll::Ready(item) with the
updated state, Poll::Pending with the updated state, or a panic (a todo!
site was reached). -/
inductive PollOutcome (A1 H1 A2 H2 E1 E2 : Type) where
  | ready (ev : Option (Event A1 H1 A2 H2)) (s : BridgeServiceState A1 H1 A2 H2 E1 E2)
  | pending (s : BridgeServiceState A1 H1 A2 H2 E1 E2)
  | panicked
deriving DecidableEq

/-- The cross-chain conversions the poll loop needs, supplied in the source
by From and Convert trait bounds (src/bridge_service.rs lines 119-136). -/
structure Conversions (H1 A2 H2 : Type) where
  hash_1_to_2 : H1 → H2
  bytes_to_a2 : List Nat → A2
  hash_2_to_1 : H2 → H1

/-- Source lines 146-176 of src/bridge_service.rs: poll the B1 to B2 map's
sub-stream once; every ActiveSwapEvent variant is only logged (trace or
warn), so the event is consumed with no other effect; Ready(None) and
Pending are logged and fall through. -/
def drain_active_b1_to_b2 {A1 H1 A2 H2 E1 E2 : Type}
    (s : BridgeServiceState A1 H1 A2 H2 E1 E2) :
    BridgeServiceState A1 H1 A2 H2 E1 E2 :=
  match s.active_swaps_b1_to_b2.event_stream.poll with
  | .readySome e rest =>
    match e with
    | .BridgeAssetsLocked _ =>
      { s with active_swaps_b1_to_b2 := { s.active_swaps_b1_to_b2 with event_stream := rest } }
    | .BridgeAssetsLockingError _ =>
      { s with active_swaps_b1_to_b2 := { s.active_swaps_b1_to_b2 with event_stream := rest } }
    | .BridgeAssetsCompleted _ =>
      { s with active_swaps_b1_to_b2 := { s.active_swaps_b1_to_b2 with event_stream := rest } }
    | .BridgeAssetsCompletingError _ =>
      { s with active_swaps_b1_to_b2 := { s.active_swaps_b1_to_b2 with event_stream := rest } }
  | .readyNone => s
  | .pending => s

/-- Source lines 179-202 of src/bridge_service.rs: poll the B2 to B1 map's
sub-stream once; BridgeAssetsLocked and BridgeAssetsLockingError are only
logged; BridgeAssetsCompleted and BridgeAssetsCompletingError are todo!
sites and panic, modelled as none. -/
def drain_active_b2_to_b1 {A1 H1 A2 H2 E1 E2 : Type}
    (s : BridgeServiceState A1 H1 A2 H2 E1 E2) :
    Option (BridgeServiceState A1 H1 A2 H2 E1 E2) :=
  match s.active_swaps_b2_to_b1.event_stream.poll with
  | .readySome e rest =>
    match e with
    | .BridgeAssetsLocked _ =>
      some { s with active_swaps_b2_to_b1 := { s.active_swaps_b2_to_b1 with event_stream := rest } }
    | .BridgeAssetsLockingError _ =>
      some { s with active_swaps_b2_to_b1 := { s.active_swaps_b2_to_b1 with event_stream := rest } }
    | .BridgeAssetsCompleted _ => none
    | .BridgeAssetsCompletingError _ => none
  | .readyNone => some s
  | .pending => some s

/-- Source lines 230-254 of src/bridge_service.rs: poll blockchain 2 once.
An InitiatorEvent is only logged (consumed, nothing dispatched). A
CounterpartyEvent is dispatched to handle_counterparty_event with the
B1 to B2 map; a produced event is returned Ready. After fallthrough the
source returns Poll::Pending (line 256). -/
def poll_observer_2 {A1 H1 A2 H2 E1 E2 : Type} [DecidableEq H1]
    (conv : Conversions H1 A2 H2)
    (s : BridgeServiceState A1 H1 A2 H2 E1 E2) :
    PollOutcome A1 H1 A2 H2 E1 E2 :=
  match s.blockchain_2.poll with
  | .readySome e rest =>
    let s1 := { s with blockchain_2 := rest }
    match e with
    | .InitiatorEvent _ => .pending s1
    | .CounterpartyEvent ce =>
      match handle_counterparty_event conv.hash_2_to_1 ce s1.active_swaps_b1_to_b2 with
      | (some ev, m) => .ready (some ev) { s1 with active_swaps_b1_to_b2 := m }
      | (none, m) => .pending { s1 with active_swaps_b1_to_b2 := m }
  | .readyNone => .pending s
  | .pending => .pending s

/-- Source lines 204-228 of src/bridge_service.rs: poll blockchain 1 once.
An InitiatorEvent is dispatched to handle_initiator_event with the B1 to B2
map; a produced event is returned Ready; a panic in the handler (Refunded)
propagates. A CounterpartyEvent is only logged (consumed, nothing
dispatched). On fallthrough, continue with blockchain 2. -/
def poll_observer_1 {A1 H1 A2 H2 E1 E2 : Type} [DecidableEq H1]
    (conv : Conversions H1 A2 H2)
    (s : BridgeServiceState A1 H1 A2 H2 E1 E2) :
    PollOutcome A1 H1 A2 H2 E1 E2 :=
  match s.blockchain_1.poll with
  | .readySome e rest =>
    let s1 := { s with blockchain_1 := rest }
    match e with
    | .InitiatorEvent ie =>
      match handle_initiator_event conv.hash_1_to_2 conv.bytes_to_a2 ie
          s1.active_swaps_b1_to_b2 with
      | .error () => .panicked
      | .ok (some ev, m) => .ready (some ev) { s1 with active_swaps_b1_to_b2 := m }
      | .ok (none, m) => poll_observer_2 conv { s1 with active_swaps_b1_to_b2 := m }
    | .CounterpartyEvent _ => poll_observer_2 conv s1
  | .readyNone => poll_observer_2 conv s
  | .pending => poll_observer_2 conv s

/-- BridgeService::poll_next (src/bridge_service.rs lines 140-257): drain
one event from each active-swap sub-stream (logs only, with the todo! panics
of the B2 to B1 arm), then inspect observer 1 and observer 2 in order, and
finally return Poll::Pending. -/
def poll_next {A1 H1 A2 H2 E1 E2 : Type} [DecidableEq H1]
    (conv : Conversions H1 A2 H2)
    (s : BridgeServiceState A1 H1 A2 H2 E1 E2) :
    PollOutcome A1 H1 A2 H2 E1 E2 :=
  match drain_active_b2_to_b1 (drain_active_b1_to_b2 s) with
  | none => .panicked
  | some s2 => poll_observer_1 conv s2

/-- True when the head of an active-swap sub-stream, if any, is one of the
variants that the poll loop merely logs (no todo! panic). -/
def loggable_head {H E : Type} (st : StreamState (ActiveSwapEvent H E)) : Bool :=
  match st.queue with
  | [] => true
  | e :: _ =>
    match e with
    | .BridgeAssetsLocked _ => true
    | .BridgeAssetsLockingError _ => true
    | .BridgeAssetsCompleted _ => false
    | .BridgeAssetsCompletingError _ => false

/-- A fully exhausted service state: both observers and both sub-streams
have ended with empty queues. -/
def all_exhausted {A1 H1 A2 H2 E1 E2 : Type}
    (s : BridgeServiceState A1 H1 A2 H2 E1 E2) : Prop :=
  s.blockchain_1 = ⟨[], true⟩ ∧ s.blockchain_2 = ⟨[], true⟩ ∧
  s.active_swaps_b1_to_b2.event_stream = ⟨[], true⟩ ∧
  s.active_swaps_b2_to_b1.event_stream = ⟨[], true⟩

/-- A concrete conversion bundle over Nat chains, used by concrete
evaluations: identity hash conversions and a constant byte-address map. -/
def testConv : Conversions Nat Nat Nat :=
  { hash_1_to_2 := fun h => h, bytes_to_a2 := fun _ => 0, hash_2_to_1 := fun h => h }

/-- An empty swap map over Nat chains with a quiet (unended) sub-stream. -/
def emptyMap : ActiveSwapMap Nat Nat Nat Nat Nat := ⟨[], [], ⟨[], false⟩⟩

/-- A concrete initiator-side swap description over Nat chains. -/
def sampleDetails : BridgeTransferDetails Nat Nat := ⟨⟨1⟩, ⟨2⟩, ⟨[3]⟩, ⟨4⟩, ⟨5⟩, ⟨6⟩⟩

/-- A swap map over Nat chains that holds sampleDetails under id 1, waiting
for counterparty completion. -/
def mapWithSample : ActiveSwapMap Nat Nat Nat Nat Nat :=
  ⟨[(⟨1⟩, ⟨sampleDetails, .WaitingForCounterpartyCompletion, 0⟩)], [], ⟨[], false⟩⟩

/-- A concrete counterparty completion for id 1 with secret bytes [9]. -/
def sampleCompleted : CounterpartyCompletedDetails Nat Nat :=
  ⟨⟨1⟩, ⟨[2]⟩, ⟨3⟩, ⟨4⟩, ⟨[9]⟩, ⟨6⟩⟩

/-- Two lock details over Nat chains that differ only in their time lock. -/
def c9_lock_details_a : LockDetails Nat Nat := ⟨⟨1⟩, ⟨[2]⟩, ⟨3⟩, ⟨4⟩, ⟨5⟩, ⟨6⟩⟩

/-- Companion to c9_lock_details_a with a different time lock. -/
def c9_lock_details_b : LockDetails Nat Nat := ⟨⟨1⟩, ⟨[2]⟩, ⟨3⟩, ⟨4⟩, ⟨99⟩, ⟨6⟩⟩

/-- Predicate on a poll outcome: true exactly when it is Poll::Ready(None),
the termination signal of the merged stream. -/
def PollOutcome.isReadyNone {A1 H1 A2 H2 E1 E2 : Type} :
    PollOutcome A1 H1 A2 H2 E1 E2 → Bool
  | .ready none _ => true
  | _ => false

/-- A service state whose blockchain 2 observer is ready with an
InitiatorEvent Initiated, the input claim C1 says is dispatched to
handle_initiator_event with the B2 to B1 map. -/
def c1_state_b2_initiated : BridgeServiceState Nat Nat Nat Nat Nat Nat :=
  ⟨⟨[], false⟩, ⟨[.InitiatorEvent (.Initiated sampleDetails)], false⟩, emptyMap, emptyMap⟩

/-- A service state whose blockchain 1 observer is ready with a
CounterpartyEvent Completed, the input claim C1 says is dispatched to
handle_counterparty_event with the B2 to B1 map. -/
def c1_state_b1_counterparty : BridgeServiceState Nat Nat Nat Nat Nat Nat :=
  ⟨⟨[.CounterpartyEvent (.Completed sampleCompleted)], false⟩, ⟨[], false⟩, emptyMap, emptyMap⟩

/-- A swap map whose sub-stream is ready with a BridgeAssetsCompleted event. -/
def mapWithCompletedEvent : ActiveSwapMap Nat Nat Nat Nat Nat :=
  ⟨[], [], ⟨[.BridgeAssetsCompleted ⟨1⟩], false⟩⟩

/-- A service state where the B1 to B2 sub-stream holds BridgeAssetsCompleted. -/
def c4_state_b1_to_b2 : BridgeServiceState Nat Nat Nat Nat Nat Nat :=
  ⟨⟨[], false⟩, ⟨[], false⟩, mapWithCompletedEvent, emptyMap⟩

/-- A service state where the B2 to B1 sub-stream holds BridgeAssetsCompleted. -/
def c4_state_b2_to_b1 : BridgeServiceState Nat Nat Nat Nat Nat Nat :=
  ⟨⟨[], false⟩, ⟨[], false⟩, emptyMap, mapWithCompletedEvent⟩

/-- A service state whose blockchain 1 observer is ready with an Initiated
event while every other source is quiet. -/
def c7_state : BridgeServiceState Nat Nat Nat Nat Nat Nat :=
  ⟨⟨[.InitiatorEvent (.Initiated sampleDetails)], false⟩, ⟨[], false⟩, emptyMap, emptyMap⟩

/-- A fully exhausted concrete service state: both observers and both
sub-streams have ended and the maps are empty. -/
def exhaustedState : BridgeServiceState Nat Nat Nat Nat Nat Nat :=
  ⟨⟨[], true⟩, ⟨[], true⟩, ⟨[], [], ⟨[], true⟩⟩, ⟨[], [], ⟨[], true⟩⟩⟩

/-- Claim C2: the spec says that on an initiator-side Completed(id) for a
swap in the map the entry transitions to Done and is removed. Evaluating the
code at such an input: handle_initiator_event only passes the event through
and returns the map unchanged; the entry is still present and its phase is
not Done. -/
theorem c2_completed_leaves_entry_in_map :
    handle_initiator_event (fun h : Nat => h) (fun _ => (0 : Nat))
        (.Completed ⟨1⟩) mapWithSample =
      .ok (some (.B1I (.ContractEvent (.Completed ⟨1⟩))), mapWithSample)
    ∧ mapWithSample.already_executing ⟨1⟩ = true
    ∧ mapWithSample.swaps.map (fun p => p.2.phase) =
        [.WaitingForCounterpartyCompletion] :=
  ⟨rfl, by decide, by decide⟩

/-- Claim C3: the spec says a Refunded event must be accepted, logged and
the entry removed, without panicking. Evaluating the code at a Refunded
event: handle_initiator_event reaches the todo! at
src/bridge_service.rs line 79 and panics (the modelled error value). -/
theorem c3_refunded_panics :
    handle_initiator_event (fun h : Nat => h) (fun _ => (0 : Nat))
        (.Refunded ⟨1⟩) mapWithSample = .error () := rfl

/-- Claim C5: an Initiated event whose id is already executing produces
exactly the AlreadyPresent warning with the map unchanged (so no lock action
is begun); an Initiated event for an absent id emits the passthrough event
and inserts exactly one entry. -/
theorem c5_duplicate_initiated_dedup {A1 H1 A2 H2 E : Type} [DecidableEq H1]
    (convH : H1 → H2) (convA : List Nat → A2)
    (details : BridgeTransferDetails A1 H1) (m : ActiveSwapMap A1 H1 A2 H2 E) :
    (m.already_executing details.bridge_transfer_id = true →
      handle_initiator_event convH convA (.Initiated details) m =
        .ok (some (.B1I (.Warn (.AlreadyPresent details))), m))
    ∧ (m.already_executing details.bridge_transfer_id = false →
      handle_initiator_event convH convA (.Initiated details) m =
        .ok (some (.B1I (.ContractEvent (.Initiated details))),
          m.start_bridge_transfer convH convA details)
      ∧ (m.start_bridge_transfer convH convA details).swaps =
        m.swaps ++ [(details.bridge_transfer_id,
          { details := details, phase := .LockingOnCounterparty, retry_count := 0 })]) := by
  constructor
  · intro h
    simp [handle_initiator_event, h]
  · intro h
    constructor
    · simp [handle_initiator_event, h]
    · simp [ActiveSwapMap.start_bridge_transfer, h]

/-- Witness for claim C5 at concrete inputs: id 1 is already executing in
mapWithSample and duplicated, and is absent from emptyMap and inserted. -/
theorem c5_duplicate_initiated_dedup_witness :
    (mapWithSample.already_executing sampleDetails.bridge_transfer_id = true
      ∧ handle_initiator_event (fun h : Nat => h) (fun _ => (0 : Nat))
          (.Initiated sampleDetails) mapWithSample =
        .ok (some (.B1I (.Warn (.AlreadyPresent sampleDetails))), mapWithSample))
    ∧ (emptyMap.already_executing sampleDetails.bridge_transfer_id = false
      ∧ handle_initiator_event (fun h : Nat => h) (fun _ => (0 : Nat))
          (.Initiated sampleDetails) emptyMap =
        .ok (some (.B1I (.ContractEvent (.Initiated sampleDetails))),
          emptyMap.start_bridge_transfer (fun h => h) (fun _ => 0) sampleDetails)) :=
  ⟨⟨by decide,
    (c5_duplicate_initiated_dedup (fun h : Nat => h) (fun _ => (0 : Nat))
      sampleDetails mapWithSample).1 (by decide)⟩,
   ⟨by decide,
    ((c5_duplicate_initiated_dedup (fun h : Nat => h) (fun _ => (0 : Nat))
      sampleDetails emptyMap).2 (by decide)).1⟩⟩

/-- Claim C6: a counterparty Completed whose converted id is absent from the
map yields exactly the CannotCompleteUnexistingSwap warning with the map
unchanged (in particular no initiator-complete action is appended to the
action trace), and the handler is a total function with no panic site. -/
theorem c6_orphan_completion_warns {A1 H1 A2 H2 E : Type} [DecidableEq H1]
    (convHBack : H2 → H1) (details : CounterpartyCompletedDetails A2 H2)
    (m : ActiveSwapMap A1 H1 A2 H2 E)
    (habs : m.already_executing ⟨convHBack details.bridge_transfer_id.hash⟩ = false) :
    handle_counterparty_event convHBack (.Completed details) m =
      (some (.B2C (.Warn (.CannotCompleteUnexistingSwap details))), m) := by
  simp [handle_counterparty_event, ActiveSwapMap.complete_bridge_transfer, habs]

/-- Witness for claim C6: the orphan completion sampleCompleted against the
empty map. -/
theorem c6_orphan_completion_warns_witness :
    emptyMap.already_executing
        ⟨testConv.hash_2_to_1 sampleCompleted.bridge_transfer_id.hash⟩ = false
    ∧ handle_counterparty_event testConv.hash_2_to_1
        (.Completed sampleCompleted) emptyMap =
      (some (.B2C (.Warn (.CannotCompleteUnexistingSwap sampleCompleted))), emptyMap) :=
  ⟨by decide,
   c6_orphan_completion_warns testConv.hash_2_to_1 sampleCompleted emptyMap (by decide)⟩

/-- Claim C8: from_lock_details stores the secret verbatim, and for a
counterparty Completed whose id is present, the dispatcher passes the
details unchanged into complete_bridge_transfer, which appends exactly one
initiator-complete action carrying details.secret byte for byte. -/
theorem c8_preimage_forwarded_verbatim {A1 H1 A2 H2 E : Type} [DecidableEq H1]
    (convHBack : H2 → H1) (details : CounterpartyCompletedDetails A2 H2)
    (m : ActiveSwapMap A1 H1 A2 H2 E)
    (hpres : m.already_executing ⟨convHBack details.bridge_transfer_id.hash⟩ = true) :
    (∀ (A H : Type) (ld : LockDetails A H) (s : HashLockPreImage),
      (CounterpartyCompletedDetails.from_lock_details ld s).secret = s)
    ∧ ∃ m2, handle_counterparty_event convHBack (.Completed details) m =
        (some (.B2C (.ContractEvent (.Completed details))), m2)
      ∧ m2.issued_actions = m.issued_actions ++
          [.complete_bridge_transfer ⟨convHBack details.bridge_transfer_id.hash⟩
            details.secret] := by
  constructor
  · exact fun _ _ _ _ => rfl
  · refine ⟨{ m with
      swaps := m.swaps.map (fun p =>
        if p.1 = (⟨convHBack details.bridge_transfer_id.hash⟩ : BridgeTransferId H1) then
          (p.1, { p.2 with phase := .CompletingOnInitiator }) else p)
      issued_actions := m.issued_actions ++
        [.complete_bridge_transfer ⟨convHBack details.bridge_transfer_id.hash⟩
          details.secret] }, ?_, rfl⟩
    simp [handle_counterparty_event, ActiveSwapMap.complete_bridge_transfer, hpres]

/-- Witness for claim C8: sampleCompleted against mapWithSample, which holds
its id; the appended action carries the secret bytes [9] verbatim. -/
theorem c8_preimage_forwarded_verbatim_witness :
    mapWithSample.already_executing ⟨sampleCompleted.bridge_transfer_id.hash⟩ = true
    ∧ ∃ m2, handle_counterparty_event (fun h : Nat => h)
        (.Completed sampleCompleted) mapWithSample =
        (some (.B2C (.ContractEvent (.Completed sampleCompleted))), m2)
      ∧ m2.issued_actions = mapWithSample.issued_actions ++
          [.complete_bridge_transfer ⟨sampleCompleted.bridge_transfer_id.hash⟩
            sampleCompleted.secret] :=
  ⟨by decide,
   (c8_preimage_forwarded_verbatim (fun h : Nat => h) sampleCompleted mapWithSample
     (by decide)).2⟩

/-- Claim C9 counterexample: CounterpartyCompletedDetails does not carry the
time_lock of the lock details: two lock details that differ only in their
time lock map under from_lock_details to the same completed details, so no
function of the result can recover the time lock. -/
theorem c9_no_time_lock_counterexample :
    CounterpartyCompletedDetails.from_lock_details c9_lock_details_a ⟨[7]⟩ =
      CounterpartyCompletedDetails.from_lock_details c9_lock_details_b ⟨[7]⟩
    ∧ c9_lock_details_a.time_lock ≠ c9_lock_details_b.time_lock := by decide

/-- Claim C9 as amended: CounterpartyCompletedDetails carries the
bridge_transfer_id, initiator_address, recipient_address, hash_lock and
amount of the lock details together with the secret, and from_lock_details
preserves exactly those five fields while setting the secret; the time_lock
of the lock details is dropped. -/
theorem c9_from_lock_details_preserves_fields {A H : Type}
    (ld : LockDetails A H) (s : HashLockPreImage) :
    (CounterpartyCompletedDetails.from_lock_details ld s).bridge_transfer_id =
        ld.bridge_transfer_id
    ∧ (CounterpartyCompletedDetails.from_lock_details ld s).initiator_address =
        ld.initiator_address
    ∧ (CounterpartyCompletedDetails.from_lock_details ld s).recipient_address =
        ld.recipient_address
    ∧ (CounterpartyCompletedDetails.from_lock_details ld s).hash_lock = ld.hash_lock
    ∧ (CounterpartyCompletedDetails.from_lock_details ld s).amount = ld.amount
    ∧ (CounterpartyCompletedDetails.from_lock_details ld s).secret = s :=
  ⟨rfl, rfl, rfl, rfl, rfl, rfl⟩

/-- Claim C1: the spec says dispatch is symmetric across the two directions.
Evaluating the code at the mirror-direction inputs: an InitiatorEvent
Initiated on blockchain 2 and a CounterpartyEvent Completed on blockchain 1
are each consumed with only a trace log; the poll returns Pending, no event
is emitted, and both swap maps (in particular active_swaps_b2_to_b1) are
left empty and untouched, contradicting symmetric dispatch. -/
theorem c1_mirror_direction_not_dispatched :
    poll_next testConv c1_state_b2_initiated =
      .pending ⟨⟨[], false⟩, ⟨[], false⟩, emptyMap, emptyMap⟩
    ∧ poll_next testConv c1_state_b1_counterparty =
      .pending ⟨⟨[], false⟩, ⟨[], false⟩, emptyMap, emptyMap⟩ := by decide

/-- Claim C4: the spec says every ActiveSwapEvent from either sub-stream is
consumed as logs only without panic. Evaluating the code: that holds for the
B1 to B2 sub-stream (Pending, event consumed, nothing emitted), but a
BridgeAssetsCompleted on the B2 to B1 sub-stream reaches the todo! at
src/bridge_service.rs line 192 and panics. -/
theorem c4_b2_to_b1_completed_event_panics :
    poll_next testConv c4_state_b1_to_b2 =
      .pending ⟨⟨[], false⟩, ⟨[], false⟩, ⟨[], [], ⟨[], false⟩⟩, emptyMap⟩
    ∧ poll_next testConv c4_state_b2_to_b1 = .panicked := by decide

/-- Draining the B1 to B2 sub-stream only consumes from that sub-stream: the
observers, the B2 to B1 map, and the swaps and action trace of the B1 to B2
map are untouched. -/
theorem drain_active_b1_to_b2_fields {A1 H1 A2 H2 E1 E2 : Type}
    (s : BridgeServiceState A1 H1 A2 H2 E1 E2) :
    (drain_active_b1_to_b2 s).blockchain_1 = s.blockchain_1
    ∧ (drain_active_b1_to_b2 s).blockchain_2 = s.blockchain_2
    ∧ (drain_active_b1_to_b2 s).active_swaps_b2_to_b1 = s.active_swaps_b2_to_b1
    ∧ (drain_active_b1_to_b2 s).active_swaps_b1_to_b2.swaps =
        s.active_swaps_b1_to_b2.swaps
    ∧ (drain_active_b1_to_b2 s).active_swaps_b1_to_b2.issued_actions =
        s.active_swaps_b1_to_b2.issued_actions := by
  rcases s with ⟨b1, b2, ⟨sw, ia, ⟨q, en⟩⟩, m21⟩
  cases q with
  | nil => cases en <;> simp [drain_active_b1_to_b2, StreamState.poll]
  | cons e q2 => cases e <;> simp [drain_active_b1_to_b2, StreamState.poll]

/-- When the head of the B2 to B1 sub-stream is loggable, draining it does
not panic and touches nothing but that sub-stream. -/
theorem drain_active_b2_to_b1_some {A1 H1 A2 H2 E1 E2 : Type}
    (s : BridgeServiceState A1 H1 A2 H2 E1 E2)
    (h : loggable_head s.active_swaps_b2_to_b1.event_stream = true) :
    ∃ u, drain_active_b2_to_b1 s = some u
      ∧ u.blockchain_1 = s.blockchain_1
      ∧ u.blockchain_2 = s.blockchain_2
      ∧ u.active_swaps_b1_to_b2 = s.active_swaps_b1_to_b2 := by
  rcases s with ⟨b1, b2, m12, ⟨sw, ia, ⟨q, en⟩⟩⟩
  cases q with
  | nil =>
    cases en <;> exact ⟨_, rfl, rfl, rfl, rfl⟩
  | cons e q2 =>
    cases e with
    | BridgeAssetsLocked id => exact ⟨_, rfl, rfl, rfl, rfl⟩
    | BridgeAssetsLockingError e2 => exact ⟨_, rfl, rfl, rfl, rfl⟩
    | BridgeAssetsCompleted id => simp [loggable_head] at h
    | BridgeAssetsCompletingError e2 => simp [loggable_head] at h

/-- Membership in an ActiveSwapMap depends only on the swaps component. -/
theorem already_executing_congr {A1 H1 A2 H2 E : Type} [DecidableEq H1]
    (m m2 : ActiveSwapMap A1 H1 A2 H2 E) (id : BridgeTransferId H1)
    (h : m.swaps = m2.swaps) :
    m.already_executing id = m2.already_executing id := by
  simp [ActiveSwapMap.already_executing, h]

/-- Claim C7: sources are inspected in the fixed order B1 to B2 sub-stream,
B2 to B1 sub-stream, observer 1, observer 2; a poll returns at most one
externally visible event. When observer 1 is ready with an Initiated event
(and the sub-streams do not hit a todo!), that first external event is
emitted Ready and observer 2 is left untouched for subsequent polls. -/
theorem c7_priority_order_single_event {A1 H1 A2 H2 E1 E2 : Type} [DecidableEq H1]
    (conv : Conversions H1 A2 H2) (s : BridgeServiceState A1 H1 A2 H2 E1 E2)
    (d : BridgeTransferDetails A1 H1) (rest : StreamState (ContractEvent A1 H1))
    (hb1 : s.blockchain_1.poll = .readySome (.InitiatorEvent (.Initiated d)) rest)
    (hsub : loggable_head s.active_swaps_b2_to_b1.event_stream = true) :
    ∃ s2, poll_next conv s =
        .ready (some (.B1I
          (cond (s.active_swaps_b1_to_b2.already_executing d.bridge_transfer_id)
            (.Warn (.AlreadyPresent d))
            (.ContractEvent (.Initiated d))))) s2
      ∧ s2.blockchain_1 = rest
      ∧ s2.blockchain_2 = s.blockchain_2 := by
  obtain ⟨h1, h2, h3, h4, h5⟩ := drain_active_b1_to_b2_fields s
  obtain ⟨u, hu, u1, u2, u3⟩ :=
    drain_active_b2_to_b1_some (drain_active_b1_to_b2 s) (by rw [h3]; exact hsub)
  have hpoll : u.blockchain_1.poll =
      .readySome (.InitiatorEvent (.Initiated d)) rest := by
    rw [u1, h1, hb1]
  have hae : u.active_swaps_b1_to_b2.already_executing d.bridge_transfer_id =
      s.active_swaps_b1_to_b2.already_executing d.bridge_transfer_id := by
    rw [u3]
    exact already_executing_congr _ _ _ h4
  simp only [poll_next, hu, poll_observer_1, hpoll]
  cases hcase : s.active_swaps_b1_to_b2.already_executing d.bridge_transfer_id with
  | true =>
    have hh : handle_initiator_event conv.hash_1_to_2 conv.bytes_to_a2
        (.Initiated d) u.active_swaps_b1_to_b2 =
        .ok (some (.B1I (.Warn (.AlreadyPresent d))), u.active_swaps_b1_to_b2) := by
      simp [handle_initiator_event, hae, hcase]
    simp only [hh, cond_true]
    exact ⟨_, rfl, rfl, by rw [u2, h2]⟩
  | false =>
    have hh : handle_initiator_event conv.hash_1_to_2 conv.bytes_to_a2
        (.Initiated d) u.active_swaps_b1_to_b2 =
        .ok (some (.B1I (.ContractEvent (.Initiated d))),
          u.active_swaps_b1_to_b2.start_bridge_transfer conv.hash_1_to_2
            conv.bytes_to_a2 d) := by
      simp [handle_initiator_event, hae, hcase]
    simp only [hh, cond_false]
    exact ⟨_, rfl, rfl, by rw [u2, h2]⟩

/-- Witness for claim C7: in c7_state observer 1 holds an Initiated event
for an id absent from the empty map; the poll emits exactly that event and
observer 2 stays untouched. -/
theorem c7_priority_order_single_event_witness :
    c7_state.blockchain_1.poll =
      .readySome (.InitiatorEvent (.Initiated sampleDetails)) ⟨[], false⟩
    ∧ loggable_head c7_state.active_swaps_b2_to_b1.event_stream = true
    ∧ ∃ s2, poll_next testConv c7_state =
        .ready (some (.B1I
          (cond (c7_state.active_swaps_b1_to_b2.already_executing
              sampleDetails.bridge_transfer_id)
            (.Warn (.AlreadyPresent sampleDetails))
            (.ContractEvent (.Initiated sampleDetails))))) s2
      ∧ s2.blockchain_1 = ⟨[], false⟩
      ∧ s2.blockchain_2 = c7_state.blockchain_2 :=
  ⟨by decide, by decide,
   c7_priority_order_single_event testConv c7_state sampleDetails ⟨[], false⟩
     (by decide) (by decide)⟩

/-- The last dispatch step never yields Poll::Ready(None). -/
theorem poll_observer_2_not_ready_none {A1 H1 A2 H2 E1 E2 : Type} [DecidableEq H1]
    (conv : Conversions H1 A2 H2) (s : BridgeServiceState A1 H1 A2 H2 E1 E2) :
    (poll_observer_2 conv s).isReadyNone = false := by
  rcases s with ⟨b1, ⟨q2, en2⟩, m12, m21⟩
  cases q2 with
  | nil => cases en2 <;> rfl
  | cons e q2r =>
    cases e with
    | InitiatorEvent ie => rfl
    | CounterpartyEvent ce =>
      rcases hce : handle_counterparty_event conv.hash_2_to_1 ce m12 with ⟨o, m⟩
      cases o <;>
        simp [poll_observer_2, StreamState.poll, hce, PollOutcome.isReadyNone]

/-- The observer-1 dispatch step never yields Poll::Ready(None). -/
theorem poll_observer_1_not_ready_none {A1 H1 A2 H2 E1 E2 : Type} [DecidableEq H1]
    (conv : Conversions H1 A2 H2) (s : BridgeServiceState A1 H1 A2 H2 E1 E2) :
    (poll_observer_1 conv s).isReadyNone = false := by
  rcases s with ⟨⟨q1, en1⟩, b2, m12, m21⟩
  cases q1 with
  | nil =>
    cases en1 <;>
      (simp only [poll_observer_1, StreamState.poll]
       exact poll_observer_2_not_ready_none conv _)
  | cons e q1r =>
    cases e with
    | CounterpartyEvent ce =>
      simp only [poll_observer_1, StreamState.poll]
      exact poll_observer_2_not_ready_none conv _
    | InitiatorEvent ie =>
      cases hie : handle_initiator_event conv.hash_1_to_2 conv.bytes_to_a2 ie m12 with
      | error e2 =>
        simp [poll_observer_1, StreamState.poll, hie, PollOutcome.isReadyNone]
      | ok p =>
        rcases p with ⟨o, m⟩
        cases o with
        | some ev =>
          simp [poll_observer_1, StreamState.poll, hie, PollOutcome.isReadyNone]
        | none =>
          simp only [poll_observer_1, StreamState.poll, hie]
          exact poll_observer_2_not_ready_none conv _

/-- Claim C10: the merged stream never signals termination: no poll outcome
is Poll::Ready(None); and on a fully exhausted state (both observers and
both sub-streams ended) the poll returns Pending with the state unchanged. -/
theorem c10_poll_never_ready_none {A1 H1 A2 H2 E1 E2 : Type} [DecidableEq H1] :
    (∀ (conv : Conversions H1 A2 H2) (s : BridgeServiceState A1 H1 A2 H2 E1 E2),
      (poll_next conv s).isReadyNone = false)
    ∧ (∀ (conv : Conversions H1 A2 H2) (s : BridgeServiceState A1 H1 A2 H2 E1 E2),
      all_exhausted s → poll_next conv s = .pending s) := by
  constructor
  · intro conv s
    unfold poll_next
    cases hd : drain_active_b2_to_b1 (drain_active_b1_to_b2 s) with
    | none => rfl
    | some u => exact poll_observer_1_not_ready_none conv u
  · intro conv s hex
    obtain ⟨e1, e2, e3, e4⟩ := hex
    simp [poll_next, drain_active_b1_to_b2, drain_active_b2_to_b1,
      poll_observer_1, poll_observer_2, e1, e2, e3, e4, StreamState.poll]

/-- Witness for claim C10 at the concrete exhausted state. -/
theorem c10_poll_never_ready_none_witness :
    (poll_next testConv exhaustedState).isReadyNone = false
    ∧ poll_next testConv exhaustedState = .pending exhaustedState :=
  ⟨(c10_poll_never_ready_none).1 testConv exhaustedState,
   (c10_poll_never_ready_none).2 testConv exhaustedState ⟨rfl, rfl, rfl, rfl⟩⟩

end AtomicBridge
